import Mathlib

/-!
Verification of the software-PWM servo scheduler of the ATmega32 driver
collection (files `ATMEGA32/HAL/SERVO/SERVO.c`, `SERVO_def.h`).

The servo driver is embedded shallowly: the registry, the scheduler cursor
and the collaborating timer/GPIO registers become one explicit state record,
and each C function becomes a Lean function on that state.  The TIMER1 and
DIO modules themselves are not part of the sources verified here; the
specification describes them as a free-running tick counter with a settable
compare value and a synchronous set-pin-level primitive, and they are
modelled accordingly (each such definition is marked `Modelled from the
spec:`).

The angle-to-microsecond step of `SERVO_SetAngleByID` is computed in C with
IEEE-754 binary64 arithmetic (`1000.0 / 180`).  All values arising in that
computation are dyadic rationals with denominator dividing `2 ^ 50`, so the
binary64 arithmetic is embedded exactly over `ℕ`, scaled by `2 ^ 50`, with
correct round-to-nearest, ties-to-even rounding.
-/

namespace ATmega32Servo

/-! ### Constants from `SERVO_def.h` -/

/-- Maximum number of servos that can be initialized (`SERVO_MAX_NUM`). -/
def SERVO_MAX_NUM : ℕ := 9

/-- Minimum servo angle in degrees (`SERVO_MIN_ANGLE`). -/
def SERVO_MIN_ANGLE : ℕ := 0

/-- Maximum servo angle in degrees (`SERVO_MAX_ANGLE`). -/
def SERVO_MAX_ANGLE : ℕ := 180

/-- Number of microseconds in the PWM interval (`SERVO_PWM_INTERVAL_US`, 20ms). -/
def SERVO_PWM_INTERVAL_US : ℕ := 20000

/-- Number of microseconds in the minimum pulse width (`SERVO_MIN_PULSE_US`, 1ms). -/
def SERVO_MIN_PULSE_US : ℕ := 1000

/-- Macro `SERVO_US_TO_TICKS( US )` from `SERVO_def.h`:
`( ( US ) * ( F_CPU / 1000000UL ) ) / ( TIMER1_PRESCALER )`, in C unsigned
long arithmetic.  `F_CPU` and `TIMER1_PRESCALER` are configuration macros of
the TIMER1 module, which is not among the sources here, so they are
parameters. -/
def SERVO_US_TO_TICKS (F_CPU TIMER1_PRESCALER us : ℕ) : ℕ :=
  (us * (F_CPU / 1000000)) / TIMER1_PRESCALER

/-- Number of timer ticks in the PWM interval (`SERVO_PWM_INTERVAL_TICKS`). -/
def SERVO_PWM_INTERVAL_TICKS (F_CPU TIMER1_PRESCALER : ℕ) : ℕ :=
  SERVO_US_TO_TICKS F_CPU TIMER1_PRESCALER SERVO_PWM_INTERVAL_US

/-! ### Exact model of the binary64 evaluation of
`SERVO_MIN_PULSE_US + angle * ( 1000.0 / 180 )` -/

/-- Round the rational `n / d` to the nearest integer, ties to even
(the IEEE-754 default rounding of a significand). -/
def divNearestEven (n d : ℕ) : ℕ :=
  let q := n / d
  let r := n % d
  if 2 * r < d then q
  else if d < 2 * r then q + 1
  else if q % 2 = 0 then q else q + 1

/-- Floor of the base-2 logarithm, by structural recursion on a fuel bound
(values here are below `2 ^ 64`). -/
def floorLog2 : ℕ → ℕ → ℕ
  | 0, _ => 0
  | fuel + 1, n => if 2 ≤ n then floorLog2 fuel (n / 2) + 1 else 0

/-- Common scaling denominator `2 ^ 50` for the dyadic values of the
angle-to-microseconds computation: every binary64 value arising there lies
in `[1, 2 ^ 11)` (or is 0) and hence is an integer multiple of `2 ^ (-50)`. -/
def dyadicDen : ℕ := 2 ^ 50

/-- Round the nonnegative real value `N / 2 ^ 50` to the nearest IEEE-754
binary64 value (round-to-nearest, ties-to-even), returned again as a
numerator over `2 ^ 50`.  For a value with floor-log2 `e ≥ 2` the unit in
the last place is `2 ^ (e - 52) = 2 ^ (e - 2) / 2 ^ 50`; for values below 4
(only 0 arises here besides values ≥ 4) the spacing `2 ^ (-50)` or finer
makes the value exact. -/
def roundBinary64 (N : ℕ) : ℕ :=
  if N = 0 then 0
  else
    let e := floorLog2 64 (N / dyadicDen)
    let s := e - 2
    divNearestEven N (2 ^ s) * 2 ^ s

/-- The binary64 constant `1000.0 / 180` of `SERVO_SetAngleByID`, as a
numerator over `2 ^ 50` (its value is in `[4, 8)`, so its unit in the last
place is exactly `2 ^ (-50)`). -/
def degFactor : ℕ := divNearestEven (1000 * dyadicDen) 180

/-- Lines 185–186 of `SERVO.c`:
`uint16 microseconds = SERVO_MIN_PULSE_US + angle * ( 1000.0 / 180 );`
evaluated in binary64 (`angle * c` correctly rounded, then `1000 + _`
correctly rounded) and converted to `uint16` by truncation toward zero.
For `angle ≤ 255` the value is below 2418, so the `uint16` conversion is
plain truncation. -/
def angleToMicroseconds (angle : ℕ) : ℕ :=
  roundBinary64 (SERVO_MIN_PULSE_US * dyadicDen + roundBinary64 (angle * degFactor)) /
    dyadicDen

/-! ### Data model -/

/-- Structure `Servo` from `SERVO_def.h`: `port` is a 2-bit field, `pin` a
3-bit field and `ticks` a 27-bit field of a `uint32`.  The fields are kept
as `ℕ` here; the bit-field truncations `% 4`, `% 8`, `% 2 ^ 27` are applied
at every write site, as the C bit-field assignment does. -/
structure Servo where
  port : ℕ
  pin : ℕ
  ticks : ℕ
deriving DecidableEq, Repr

/-- Digital pin level, `LOW` / `HIGH` of the DIO module. -/
inductive PinLevel where
  | LOW
  | HIGH
deriving DecidableEq, Repr

/-- Pin direction, only `OUTPUT` is used by the servo driver. -/
inductive PinDir where
  | INPUT
  | OUTPUT
deriving DecidableEq, Repr

/-- Record of one GPIO call made by the driver, most recent first in the
event log.  `setValue p q l` records `DIO_SetPinValue(p, q, l)` and
`setDirection p q d` records `DIO_SetPinDirection(p, q, d)`. -/
inductive PinEvent where
  | setValue (port pin : ℕ) (level : PinLevel)
  | setDirection (port pin : ℕ) (dir : PinDir)
deriving DecidableEq, Repr

/-- Complete state of the servo driver together with its collaborators:
`servos` is the used prefix of the C array `servos[SERVO_MAX_NUM]` (its
length is the C counter `servo_count`; slots past the counter are never
read by the C code), `servo_id` is the static cursor of `SERVO_Interrupt`
(a `uint8`), `timer` and `compareB` model the TIMER1 free-running counter
and its compare-B register, `callbackInstalled` records whether
`TIMER1_SetCallback` has installed `SERVO_Interrupt`, `pins` gives the
current level of every GPIO pin, and `events` logs the GPIO calls. -/
structure DriverState where
  servos : List Servo
  servo_id : ℕ
  timer : ℕ
  compareB : ℕ
  callbackInstalled : Bool
  pins : ℕ → ℕ → PinLevel
  events : List PinEvent

/-- Servo count: the C variable `servo_count` always equals the number of
registered channels, the length of the used prefix. -/
def DriverState.servo_count (s : DriverState) : ℕ := s.servos.length

/-- Modelled from the spec: `SetPinLevel(port, pin, level)` of the absent
DIO module sets the level of one GPIO pin synchronously; the write is also
recorded in the event log. -/
def DIO_SetPinValue (port pin : ℕ) (level : PinLevel) (s : DriverState) : DriverState :=
  { s with
    pins := fun p q => if p = port ∧ q = pin then level else s.pins p q
    events := PinEvent.setValue port pin level :: s.events }

/-- Modelled from the spec: `SetPinDirectionOutput(port, pin)` of the absent
DIO module; only the event is recorded. -/
def DIO_SetPinDirection (port pin : ℕ) (dir : PinDir) (s : DriverState) : DriverState :=
  { s with events := PinEvent.setDirection port pin dir :: s.events }

/-- Modelled from the spec: `TimerReset` / `TIMER1_SetTimerValue` of the
absent TIMER1 module writes the free-running tick counter. -/
def TIMER1_SetTimerValue (v : ℕ) (s : DriverState) : DriverState :=
  { s with timer := v }

/-- Modelled from the spec: `TimerSetCompareValue` /
`TIMER1_SetCompare_B_Value` of the absent TIMER1 module writes the
compare-B register. -/
def TIMER1_SetCompare_B_Value (v : ℕ) (s : DriverState) : DriverState :=
  { s with compareB := v }

/-- Modelled from the spec: `TimerGetCurrentValue` / `TIMER1_GetTimerValue`
reads the free-running tick counter. -/
def TIMER1_GetTimerValue (s : DriverState) : ℕ := s.timer

/-- Default used for the guarded list accesses; the C code only indexes
`servos` below `servo_count`, so this value is never actually read. -/
def dummyServo : Servo := ⟨0, 0, 0⟩

/-! ### The operations of `SERVO.c` -/

/-- Function `SERVO_Interrupt` of `SERVO.c` (lines 56–108), the Timer1
compare-B interrupt handler.  First phase: if the static cursor `servo_id`
is a valid index, drive that servo pin LOW and increment the cursor (a
`uint8`, hence `% 256`); otherwise reset the timer value to 0 and set the
cursor to 0.  Second phase: if the new cursor is still valid and that
servo has nonzero ticks, program the compare-B register to the current
timer value plus the ticks and drive the pin HIGH; if the new cursor is
not valid, program the compare-B register to `SERVO_PWM_INTERVAL_TICKS`
when the current timer value plus 50 is below it, and to the current timer
value plus 20 otherwise. -/
def SERVO_Interrupt (F_CPU TIMER1_PRESCALER : ℕ) (s : DriverState) : DriverState :=
  let s1 :=
    if s.servo_id < s.servo_count then
      let sv := s.servos.getD s.servo_id dummyServo
      let t := DIO_SetPinValue sv.port sv.pin PinLevel.LOW s
      { t with servo_id := (t.servo_id + 1) % 256 }
    else
      let t := TIMER1_SetTimerValue 0 s
      { t with servo_id := 0 }
  if s1.servo_id < s1.servo_count then
    let sv := s1.servos.getD s1.servo_id dummyServo
    if 0 < sv.ticks then
      let t := TIMER1_SetCompare_B_Value (TIMER1_GetTimerValue s1 + sv.ticks) s1
      DIO_SetPinValue sv.port sv.pin PinLevel.HIGH t
    else
      s1
  else
    if TIMER1_GetTimerValue s1 + 50 < SERVO_PWM_INTERVAL_TICKS F_CPU TIMER1_PRESCALER then
      TIMER1_SetCompare_B_Value (SERVO_PWM_INTERVAL_TICKS F_CPU TIMER1_PRESCALER) s1
    else
      TIMER1_SetCompare_B_Value (TIMER1_GetTimerValue s1 + 20) s1

/-- Function `SERVO_Init` of `SERVO.c` (lines 129–164).  Returns `0xFF` and
leaves the state untouched when the registry is full; otherwise, on the
first-ever registration, installs the interrupt callback and resets the
timer value, then appends the new channel (bit-fields truncate `port` to 2
bits and `pin` to 3 bits), drives the pin to output low (with the caller's
untruncated arguments, as in C) and returns the old count. -/
def SERVO_Init (port pin : ℕ) (s : DriverState) : ℕ × DriverState :=
  if SERVO_MAX_NUM ≤ s.servo_count then
    (0xFF, s)
  else
    let s1 :=
      if s.servo_count = 0 then
        TIMER1_SetTimerValue 0 { s with callbackInstalled := true }
      else
        s
    let s2 := { s1 with servos := s1.servos ++ [⟨port % 4, pin % 8, 0⟩] }
    let s3 := DIO_SetPinDirection port pin PinDir.OUTPUT s2
    let s4 := DIO_SetPinValue port pin PinLevel.LOW s3
    (s.servo_count, s4)

/-- Function `SERVO_SetAngleByID` of `SERVO.c` (lines 179–191).  When the
angle is within `[SERVO_MIN_ANGLE, SERVO_MAX_ANGLE]` and the id is below
the count, converts the angle to microseconds (binary64, truncated to
`uint16`), converts the microseconds to ticks with `SERVO_US_TO_TICKS` and
stores them into the 27-bit `ticks` field; otherwise does nothing. -/
def SERVO_SetAngleByID (F_CPU TIMER1_PRESCALER servo_id angle : ℕ) (s : DriverState) :
    DriverState :=
  if SERVO_MIN_ANGLE ≤ angle ∧ angle ≤ SERVO_MAX_ANGLE ∧ servo_id < s.servo_count then
    let microseconds := angleToMicroseconds angle
    let sv := s.servos.getD servo_id dummyServo
    { s with
      servos := s.servos.set servo_id
        { sv with
          ticks := SERVO_US_TO_TICKS F_CPU TIMER1_PRESCALER microseconds % 2 ^ 27 } }
  else
    s

/-- Function `SERVO_SetAngleByPin` of `SERVO.c` (lines 207–219): scan the
registered ids in order and apply `SERVO_SetAngleByID` to every channel
whose stored pin and port match the arguments. -/
def SERVO_SetAngleByPin (F_CPU TIMER1_PRESCALER port pin angle : ℕ) (s : DriverState) :
    DriverState :=
  (List.range s.servo_count).foldl
    (fun t servo_id =>
      if (t.servos.getD servo_id dummyServo).pin = pin ∧
          (t.servos.getD servo_id dummyServo).port = port then
        SERVO_SetAngleByID F_CPU TIMER1_PRESCALER servo_id angle t
      else
        t)
    s

/-- Initial state of the driver: no servo registered (`servo_count = 0`),
the static cursor at its sentinel `0xFF`, no callback installed, no GPIO
call made yet.  The hardware timer, compare register and pin levels start
at unspecified values, so they are parameters. -/
def initialState (timer0 compareB0 : ℕ) (pins0 : ℕ → ℕ → PinLevel) : DriverState :=
  { servos := []
    servo_id := 0xFF
    timer := timer0
    compareB := compareB0
    callbackInstalled := false
    pins := pins0
    events := [] }

/-- Modelled from the spec: between interrupt invocations the hardware
tick counter runs freely; foreground code never touches it.  A hardware
step simply replaces the timer value. -/
def timerRunsTo (t : ℕ) (s : DriverState) : DriverState :=
  { s with timer := t }

/-- View of `SERVO_Interrupt`: the value of the cursor after the first half
of the handler (the `servo_id` the second half tests), read off the source:
incremented modulo 256 when the entry cursor was a valid index, reset to 0
otherwise. -/
def phase1Cursor (s : DriverState) : ℕ :=
  if s.servo_id < s.servo_count then (s.servo_id + 1) % 256 else 0

/-- View of `SERVO_Interrupt`: the value of the tick counter after the first
half of the handler (what `TIMER1_GetTimerValue()` returns in the second
half): unchanged when the entry cursor was a valid index, reset to 0
otherwise. -/
def phase1Timer (s : DriverState) : ℕ :=
  if s.servo_id < s.servo_count then s.timer else 0

/-- Sequence of interrupt invocations: before each invocation the hardware
tick counter has run freely to some value `ts i` (the handler itself never
depends on anything else happening between invocations).  `runFrame F p ts
s i` is the driver state after `i` invocations starting from `s`. -/
def runFrame (F_CPU TIMER1_PRESCALER : ℕ) (ts : ℕ → ℕ) (s : DriverState) : ℕ → DriverState
  | 0 => s
  | i + 1 =>
      SERVO_Interrupt F_CPU TIMER1_PRESCALER
        (timerRunsTo (ts i) (runFrame F_CPU TIMER1_PRESCALER ts s i))

/-- Reachable driver states: the initial state, closed under the three API
calls, the interrupt handler, and the free running of the hardware tick
counter. -/
inductive Reachable (F_CPU TIMER1_PRESCALER : ℕ) : DriverState → Prop
  | init (timer0 compareB0 : ℕ) (pins0 : ℕ → ℕ → PinLevel) :
      Reachable F_CPU TIMER1_PRESCALER (initialState timer0 compareB0 pins0)
  | register (port pin : ℕ) {s : DriverState} :
      Reachable F_CPU TIMER1_PRESCALER s →
      Reachable F_CPU TIMER1_PRESCALER (SERVO_Init port pin s).2
  | setAngleById (servo_id angle : ℕ) {s : DriverState} :
      Reachable F_CPU TIMER1_PRESCALER s →
      Reachable F_CPU TIMER1_PRESCALER
        (SERVO_SetAngleByID F_CPU TIMER1_PRESCALER servo_id angle s)
  | setAngleByPin (port pin angle : ℕ) {s : DriverState} :
      Reachable F_CPU TIMER1_PRESCALER s →
      Reachable F_CPU TIMER1_PRESCALER
        (SERVO_SetAngleByPin F_CPU TIMER1_PRESCALER port pin angle s)
  | interrupt {s : DriverState} :
      Reachable F_CPU TIMER1_PRESCALER s →
      Reachable F_CPU TIMER1_PRESCALER (SERVO_Interrupt F_CPU TIMER1_PRESCALER s)
  | timerRuns (t : ℕ) {s : DriverState} :
      Reachable F_CPU TIMER1_PRESCALER s →
      Reachable F_CPU TIMER1_PRESCALER (timerRunsTo t s)

/-- Invariant of §3 of the specification: every registered channel's tick
count is 0 (not yet commanded) or lies between the tick counts of the 1ms
and 2ms pulse widths. -/
def TicksInvariant (F_CPU TIMER1_PRESCALER : ℕ) (s : DriverState) : Prop :=
  ∀ sv ∈ s.servos, sv.ticks = 0 ∨
    (SERVO_US_TO_TICKS F_CPU TIMER1_PRESCALER 1000 ≤ sv.ticks ∧
      sv.ticks ≤ SERVO_US_TO_TICKS F_CPU TIMER1_PRESCALER 2000)

def wPins : ℕ → ℕ → PinLevel := fun _ _ => PinLevel.LOW

def wBase : DriverState := initialState 0 0 wPins

def wOne : DriverState := (SERVO_Init 0 1 wBase).2

def wSet : DriverState := SERVO_SetAngleByID 8000000 8 0 90 wOne

def wAfter1 : DriverState := SERVO_Interrupt 8000000 8 wSet

def wTwo : DriverState := (SERVO_Init 0 2 wOne).2

def wTwoSet : DriverState := SERVO_SetAngleByID 8000000 8 1 90 wTwo

def wSkip : DriverState := SERVO_Interrupt 8000000 8 (SERVO_SetAngleByID 8000000 8 0 90 wTwo)

def wNine : DriverState :=
  (SERVO_Init 3 0 (SERVO_Init 2 0 (SERVO_Init 1 0 (SERVO_Init 0 7 (SERVO_Init 0 6
    (SERVO_Init 0 5 (SERVO_Init 0 4 (SERVO_Init 0 3 (SERVO_Init 0 2 wBase).2).2).2).2).2).2).2).2).2

lemma SERVO_Interrupt_servos (F p : ℕ) (s : DriverState) :
    (SERVO_Interrupt F p s).servos = s.servos := by
  unfold SERVO_Interrupt
  dsimp only
  split_ifs <;> rfl

lemma timerRunsTo_servos (t : ℕ) (s : DriverState) : (timerRunsTo t s).servos = s.servos := rfl

lemma timerRunsTo_servo_id (t : ℕ) (s : DriverState) :
    (timerRunsTo t s).servo_id = s.servo_id := rfl

lemma interrupt_advance (F p : ℕ) (s : DriverState) (h255 : s.servo_count ≤ 255)
    (hlt : s.servo_id < s.servo_count) :
    (SERVO_Interrupt F p s).servo_id = s.servo_id + 1 := by
  have hmod : (s.servo_id + 1) % 256 = s.servo_id + 1 := Nat.mod_eq_of_lt (by omega)
  unfold SERVO_Interrupt
  rw [if_pos hlt]
  dsimp only [DIO_SetPinValue, TIMER1_SetCompare_B_Value, TIMER1_GetTimerValue]
  split_ifs <;> simp [hmod]

lemma interrupt_low_event (F p : ℕ) (s : DriverState) (hlt : s.servo_id < s.servo_count) :
    ∃ pre, (SERVO_Interrupt F p s).events =
      pre ++ PinEvent.setValue (s.servos.getD s.servo_id dummyServo).port
        (s.servos.getD s.servo_id dummyServo).pin PinLevel.LOW :: s.events := by
  unfold SERVO_Interrupt
  rw [if_pos hlt]
  dsimp only [DIO_SetPinValue, TIMER1_SetCompare_B_Value, TIMER1_GetTimerValue]
  split_ifs
  · exact ⟨[PinEvent.setValue (s.servos.getD ((s.servo_id + 1) % 256) dummyServo).port
      (s.servos.getD ((s.servo_id + 1) % 256) dummyServo).pin PinLevel.HIGH], by simp⟩
  · exact ⟨[], by simp⟩
  · exact ⟨[], by simp⟩
  · exact ⟨[], by simp⟩

lemma interrupt_reset (F p : ℕ) (s : DriverState) (hge : ¬ s.servo_id < s.servo_count) :
    (SERVO_Interrupt F p s).timer = 0 ∧ (SERVO_Interrupt F p s).servo_id = 0 := by
  unfold SERVO_Interrupt
  rw [if_neg hge]
  dsimp only [DIO_SetPinValue, TIMER1_SetTimerValue, TIMER1_SetCompare_B_Value,
    TIMER1_GetTimerValue]
  split_ifs <;> exact ⟨rfl, rfl⟩

lemma interrupt_high (F p : ℕ) (s : DriverState)
    (hk : phase1Cursor s < s.servo_count)
    (ht : 0 < (s.servos.getD (phase1Cursor s) dummyServo).ticks) :
    ∃ l, (SERVO_Interrupt F p s).events =
        PinEvent.setValue (s.servos.getD (phase1Cursor s) dummyServo).port
          (s.servos.getD (phase1Cursor s) dummyServo).pin PinLevel.HIGH :: l ∧
      (SERVO_Interrupt F p s).compareB =
        phase1Timer s + (s.servos.getD (phase1Cursor s) dummyServo).ticks := by
  by_cases h1 : s.servo_id < s.servo_count
  · simp only [phase1Cursor, phase1Timer, if_pos h1] at hk ht ⊢
    unfold SERVO_Interrupt
    rw [if_pos h1]
    dsimp only [DIO_SetPinValue, TIMER1_SetTimerValue, TIMER1_SetCompare_B_Value,
      TIMER1_GetTimerValue, DriverState.servo_count] at hk ht ⊢
    rw [if_pos hk, if_pos ht]
    exact ⟨_, rfl, rfl⟩
  · simp only [phase1Cursor, phase1Timer, if_neg h1] at hk ht ⊢
    unfold SERVO_Interrupt
    rw [if_neg h1]
    dsimp only [DIO_SetPinValue, TIMER1_SetTimerValue, TIMER1_SetCompare_B_Value,
      TIMER1_GetTimerValue, DriverState.servo_count] at hk ht ⊢
    rw [if_pos hk, if_pos ht]
    exact ⟨_, rfl, rfl⟩

lemma interrupt_skip_advance (F p : ℕ) (s : DriverState) (h255 : s.servo_count ≤ 255)
    (hlt : s.servo_id < s.servo_count) (hnext : s.servo_id + 1 < s.servo_count)
    (h0 : (s.servos.getD (s.servo_id + 1) dummyServo).ticks = 0) :
    (SERVO_Interrupt F p s).events =
        PinEvent.setValue (s.servos.getD s.servo_id dummyServo).port
          (s.servos.getD s.servo_id dummyServo).pin PinLevel.LOW :: s.events ∧
      (SERVO_Interrupt F p s).compareB = s.compareB ∧
      (SERVO_Interrupt F p s).servo_id = s.servo_id + 1 ∧
      (SERVO_Interrupt F p s).timer = s.timer := by
  have hmod : (s.servo_id + 1) % 256 = s.servo_id + 1 := Nat.mod_eq_of_lt (by omega)
  unfold SERVO_Interrupt
  rw [if_pos hlt]
  dsimp only [DIO_SetPinValue, TIMER1_SetTimerValue, TIMER1_SetCompare_B_Value,
    TIMER1_GetTimerValue, DriverState.servo_count] at *
  rw [hmod]
  rw [if_pos hnext, if_neg (by simp only [List.getD_eq_getElem?_getD] at h0; simp [h0])]
  exact ⟨rfl, rfl, rfl, rfl⟩

lemma runFrame_servos (F p : ℕ) (ts : ℕ → ℕ) (s : DriverState) :
    ∀ i, (runFrame F p ts s i).servos = s.servos := by
  intro i
  induction i with
  | zero => rfl
  | succ i ih => rw [runFrame, SERVO_Interrupt_servos]; exact ih

lemma runFrame_cursor (F p : ℕ) (ts : ℕ → ℕ) (s : DriverState)
    (h255 : s.servo_count ≤ 255) (hstart : ¬ s.servo_id < s.servo_count) :
    ∀ i, i ≤ s.servo_count → (runFrame F p ts s (i+1)).servo_id = i := by
  intro i
  induction i with
  | zero =>
      intro _
      rw [runFrame]
      exact (interrupt_reset F p (timerRunsTo (ts 0) s) hstart).2
  | succ i ih =>
      intro hle
      have hcur : (runFrame F p ts s (i+1)).servo_id = i := ih (by omega)
      rw [runFrame]
      have hu_id : (timerRunsTo (ts (i+1)) (runFrame F p ts s (i+1))).servo_id = i := hcur
      have hu_cnt : (timerRunsTo (ts (i+1)) (runFrame F p ts s (i+1))).servo_count
          = s.servo_count := by
        simp [timerRunsTo, DriverState.servo_count, runFrame_servos]
      rw [interrupt_advance F p _ (by rw [hu_cnt]; exact h255)
        (by rw [hu_id, hu_cnt]; omega), hu_id]

lemma phase1Cursor_timerRunsTo (t : ℕ) (u : DriverState) :
    phase1Cursor (timerRunsTo t u) = phase1Cursor u := rfl

lemma runFrame_high (F p : ℕ) (ts : ℕ → ℕ) (s : DriverState)
    (h255 : s.servo_count ≤ 255) (hstart : ¬ s.servo_id < s.servo_count) :
    ∀ j, j < s.servo_count → 0 < (s.servos.getD j dummyServo).ticks →
    ∃ l, (runFrame F p ts s (j+1)).events =
      PinEvent.setValue (s.servos.getD j dummyServo).port
        (s.servos.getD j dummyServo).pin PinLevel.HIGH :: l := by
  intro j
  cases j with
  | zero =>
      intro hj ht
      rw [runFrame]
      have hpc : phase1Cursor (timerRunsTo (ts 0) s) = 0 := by
        rw [phase1Cursor_timerRunsTo, phase1Cursor, if_neg hstart]
      obtain ⟨l, hev, hcb⟩ := interrupt_high F p (timerRunsTo (ts 0) s)
        (by rw [hpc]; exact hj) (by rw [hpc]; exact ht)
      rw [hpc] at hev
      exact ⟨l, hev⟩
  | succ i =>
      intro hj ht
      rw [runFrame]
      have hu_id : (runFrame F p ts s (i+1)).servo_id = i :=
        runFrame_cursor F p ts s h255 hstart i (by omega)
      have hu_cnt : (runFrame F p ts s (i+1)).servo_count = s.servo_count := by
        rw [DriverState.servo_count, runFrame_servos]
        rfl
      have hu_srv : (runFrame F p ts s (i+1)).servos = s.servos := runFrame_servos F p ts s (i+1)
      have hpc : phase1Cursor (timerRunsTo (ts (i+1)) (runFrame F p ts s (i+1))) = i + 1 := by
        rw [phase1Cursor_timerRunsTo, phase1Cursor, hu_id, hu_cnt, if_pos (by omega)]
        omega
      obtain ⟨l, hev, hcb⟩ :=
        interrupt_high F p (timerRunsTo (ts (i+1)) (runFrame F p ts s (i+1)))
          (by rw [hpc]
              show i + 1 < (runFrame F p ts s (i+1)).servo_count
              omega)
          (by rw [hpc]
              show 0 < ((runFrame F p ts s (i+1)).servos.getD (i+1) dummyServo).ticks
              rw [hu_srv]
              exact ht)
      rw [hpc] at hev
      have hsrv2 : (timerRunsTo (ts (i+1)) (runFrame F p ts s (i+1))).servos = s.servos :=
        hu_srv
      rw [hsrv2] at hev
      exact ⟨l, hev⟩

lemma init_full (port pin : ℕ) (s : DriverState) (h : SERVO_MAX_NUM ≤ s.servo_count) :
    SERVO_Init port pin s = (0xFF, s) := by
  unfold SERVO_Init
  rw [if_pos h]

lemma init_success (port pin : ℕ) (s : DriverState) (h : s.servo_count < SERVO_MAX_NUM) :
    (SERVO_Init port pin s).1 = s.servo_count ∧
    (SERVO_Init port pin s).2.servos = s.servos ++ [⟨port % 4, pin % 8, 0⟩] ∧
    (SERVO_Init port pin s).2.servo_id = s.servo_id ∧
    (SERVO_Init port pin s).2.pins port pin = PinLevel.LOW ∧
    (SERVO_Init port pin s).2.events = PinEvent.setValue port pin PinLevel.LOW ::
      PinEvent.setDirection port pin PinDir.OUTPUT :: s.events ∧
    (s.servo_count = 0 → (SERVO_Init port pin s).2.callbackInstalled = true ∧
      (SERVO_Init port pin s).2.timer = 0) ∧
    (s.servo_count ≠ 0 → (SERVO_Init port pin s).2.callbackInstalled = s.callbackInstalled ∧
      (SERVO_Init port pin s).2.timer = s.timer) := by
  unfold SERVO_Init
  rw [if_neg (not_le.mpr h)]
  by_cases h0 : s.servo_count = 0 <;>
    simp [h0, DIO_SetPinValue, DIO_SetPinDirection, TIMER1_SetTimerValue]

lemma setAngle_invalid (F p servo_id angle : ℕ) (s : DriverState)
    (h : ¬ (SERVO_MIN_ANGLE ≤ angle ∧ angle ≤ SERVO_MAX_ANGLE ∧ servo_id < s.servo_count)) :
    SERVO_SetAngleByID F p servo_id angle s = s := by
  unfold SERVO_SetAngleByID
  rw [if_neg h]

lemma setAngle_valid (F p servo_id angle : ℕ) (s : DriverState)
    (ha : angle ≤ SERVO_MAX_ANGLE) (hid : servo_id < s.servo_count) :
    SERVO_SetAngleByID F p servo_id angle s =
      { s with
        servos := s.servos.set servo_id
          { s.servos.getD servo_id dummyServo with
            ticks := SERVO_US_TO_TICKS F p (angleToMicroseconds angle) % 2 ^ 27 } } := by
  unfold SERVO_SetAngleByID
  rw [if_pos ⟨Nat.zero_le angle, ha, hid⟩]

set_option maxRecDepth 4000 in
lemma angleToMicroseconds_zero : angleToMicroseconds 0 = 1000 := by decide

set_option maxRecDepth 4000 in
lemma angleToMicroseconds_top : angleToMicroseconds 180 = 2000 := by decide

set_option maxRecDepth 100000 in
set_option maxHeartbeats 1000000 in
lemma angleToMicroseconds_bounds :
    ∀ a : ℕ, a < 181 → 1000 ≤ angleToMicroseconds a ∧ angleToMicroseconds a ≤ 2000 := by
  decide

set_option maxRecDepth 100000 in
set_option maxHeartbeats 1000000 in
lemma angleToMicroseconds_step :
    ∀ a : ℕ, a < 180 → angleToMicroseconds a ≤ angleToMicroseconds (a + 1) := by
  decide

lemma angleToMicroseconds_mono_add :
    ∀ d a : ℕ, a + d ≤ 180 → angleToMicroseconds a ≤ angleToMicroseconds (a + d) := by
  intro d
  induction d with
  | zero => intro a _; exact le_rfl
  | succ d ih =>
      intro a h
      exact le_trans (ih a (by omega)) (angleToMicroseconds_step (a + d) (by omega))

lemma us_to_ticks_mono (F p : ℕ) {u v : ℕ} (h : u ≤ v) :
    SERVO_US_TO_TICKS F p u ≤ SERVO_US_TO_TICKS F p v :=
  Nat.div_le_div_right (Nat.mul_le_mul_right _ h)

lemma ticksInvariant_of_servos_eq (F p : ℕ) {s t : DriverState} (h : t.servos = s.servos)
    (hinv : TicksInvariant F p s) : TicksInvariant F p t := by
  intro sv hsv
  rw [h] at hsv
  exact hinv sv hsv

lemma ticksInvariant_init (F p port pin : ℕ) (s : DriverState)
    (hinv : TicksInvariant F p s) : TicksInvariant F p (SERVO_Init port pin s).2 := by
  by_cases h : SERVO_MAX_NUM ≤ s.servo_count
  · rw [init_full port pin s h]
    exact hinv
  · have hs := (init_success port pin s (by omega)).2.1
    intro sv hsv
    rw [hs] at hsv
    rcases List.mem_append.mp hsv with h1 | h2
    · exact hinv sv h1
    · left
      rw [List.mem_singleton.mp h2]

lemma ticksInvariant_setAngle (F p servo_id angle : ℕ) (s : DriverState)
    (hcfg : SERVO_US_TO_TICKS F p 2000 < 2 ^ 27)
    (hinv : TicksInvariant F p s) :
    TicksInvariant F p (SERVO_SetAngleByID F p servo_id angle s) := by
  by_cases h : SERVO_MIN_ANGLE ≤ angle ∧ angle ≤ SERVO_MAX_ANGLE ∧ servo_id < s.servo_count
  · rw [setAngle_valid F p servo_id angle s h.2.1 h.2.2]
    intro sv hsv
    dsimp only at hsv
    rcases List.mem_or_eq_of_mem_set hsv with h1 | h2
    · exact hinv sv h1
    · right
      have hb := angleToMicroseconds_bounds angle (by
        have := h.2.1
        simp only [SERVO_MAX_ANGLE] at this
        omega)
      have hlo : SERVO_US_TO_TICKS F p 1000 ≤ SERVO_US_TO_TICKS F p (angleToMicroseconds angle) :=
        us_to_ticks_mono F p hb.1
      have hhi : SERVO_US_TO_TICKS F p (angleToMicroseconds angle) ≤ SERVO_US_TO_TICKS F p 2000 :=
        us_to_ticks_mono F p hb.2
      have hmod : SERVO_US_TO_TICKS F p (angleToMicroseconds angle) % 2 ^ 27 =
          SERVO_US_TO_TICKS F p (angleToMicroseconds angle) :=
        Nat.mod_eq_of_lt (by omega)
      rw [h2]
      dsimp only
      rw [hmod]
      exact ⟨hlo, hhi⟩
  · rw [setAngle_invalid F p servo_id angle s h]
    exact hinv

lemma foldl_preserve {α β : Type} (P : α → Prop) (f : α → β → α) (l : List β) (s : α)
    (hs : P s) (hf : ∀ a b, P a → P (f a b)) : P (List.foldl f s l) := by
  induction l generalizing s with
  | nil => exact hs
  | cons b l ih => exact ih (f s b) (hf s b hs)

lemma ticksInvariant_setAngleByPin (F p port pin angle : ℕ) (s : DriverState)
    (hcfg : SERVO_US_TO_TICKS F p 2000 < 2 ^ 27)
    (hinv : TicksInvariant F p s) :
    TicksInvariant F p (SERVO_SetAngleByPin F p port pin angle s) := by
  unfold SERVO_SetAngleByPin
  refine foldl_preserve (TicksInvariant F p) _ _ s hinv ?_
  intro a b ha
  by_cases hm : (a.servos.getD b dummyServo).pin = pin ∧ (a.servos.getD b dummyServo).port = port
  · rw [if_pos hm]
    exact ticksInvariant_setAngle F p b angle a hcfg ha
  · rw [if_neg hm]
    exact ha

lemma ticksInvariant_reachable (F p : ℕ) (s : DriverState)
    (hcfg : SERVO_US_TO_TICKS F p 2000 < 2 ^ 27)
    (hr : Reachable F p s) : TicksInvariant F p s := by
  induction hr with
  | init timer0 compareB0 pins0 => intro sv hsv; cases hsv
  | register port pin hs ih => exact ticksInvariant_init F p port pin _ ih
  | setAngleById servo_id angle hs ih => exact ticksInvariant_setAngle F p servo_id angle _ hcfg ih
  | setAngleByPin port pin angle hs ih =>
      exact ticksInvariant_setAngleByPin F p port pin angle _ hcfg ih
  | interrupt hs ih => exact ticksInvariant_of_servos_eq F p (SERVO_Interrupt_servos F p _) ih
  | timerRuns t hs ih => exact ticksInvariant_of_servos_eq F p rfl ih

lemma foldl_id {α β : Type} (f : α → β → α) (l : List β) (s : α)
    (h : ∀ b ∈ l, f s b = s) : List.foldl f s l = s := by
  induction l with
  | nil => rfl
  | cons b l ih =>
      rw [List.foldl_cons, h b (List.mem_cons_self b l)]
      exact ih (fun c hc => h c (List.mem_cons_of_mem b hc))

lemma getD_mem {l : List Servo} {i : ℕ} (h : i < l.length) : l.getD i dummyServo ∈ l := by
  rw [List.getD_eq_getElem?_getD, List.getElem?_eq_getElem h]
  exact List.getElem_mem h

lemma interrupt_new_events (F p : ℕ) (u : DriverState) :
    ∃ new, (SERVO_Interrupt F p u).events = new ++ u.events ∧
      ∀ port pin, PinEvent.setValue port pin PinLevel.HIGH ∈ new →
        phase1Cursor u < u.servo_count ∧
        0 < (u.servos.getD (phase1Cursor u) dummyServo).ticks ∧
        port = (u.servos.getD (phase1Cursor u) dummyServo).port ∧
        pin = (u.servos.getD (phase1Cursor u) dummyServo).pin := by
  by_cases h1 : u.servo_id < u.servo_count
  · simp only [phase1Cursor, if_pos h1]
    unfold SERVO_Interrupt
    rw [if_pos h1]
    dsimp only [DIO_SetPinValue, TIMER1_SetTimerValue, TIMER1_SetCompare_B_Value,
      TIMER1_GetTimerValue, DriverState.servo_count]
    split_ifs with h2 h3
    · refine ⟨[PinEvent.setValue (u.servos.getD ((u.servo_id + 1) % 256) dummyServo).port
        (u.servos.getD ((u.servo_id + 1) % 256) dummyServo).pin PinLevel.HIGH,
        PinEvent.setValue (u.servos.getD u.servo_id dummyServo).port
          (u.servos.getD u.servo_id dummyServo).pin PinLevel.LOW], by simp, ?_⟩
      intro port pin hmem
      rcases List.mem_cons.mp hmem with he | he
      · injection he with hp hq hl
        exact ⟨h2, h3, hp, hq⟩
      · rcases List.mem_singleton.mp he with he2
        injection he2 with hp hq hl
        cases hl
    · refine ⟨[PinEvent.setValue (u.servos.getD u.servo_id dummyServo).port
        (u.servos.getD u.servo_id dummyServo).pin PinLevel.LOW], by simp, ?_⟩
      intro port pin hmem
      rcases List.mem_singleton.mp hmem with he
      injection he with hp hq hl
      cases hl
    · refine ⟨[PinEvent.setValue (u.servos.getD u.servo_id dummyServo).port
        (u.servos.getD u.servo_id dummyServo).pin PinLevel.LOW], by simp, ?_⟩
      intro port pin hmem
      rcases List.mem_singleton.mp hmem with he
      injection he with hp hq hl
      cases hl
    · refine ⟨[PinEvent.setValue (u.servos.getD u.servo_id dummyServo).port
        (u.servos.getD u.servo_id dummyServo).pin PinLevel.LOW], by simp, ?_⟩
      intro port pin hmem
      rcases List.mem_singleton.mp hmem with he
      injection he with hp hq hl
      cases hl
  · simp only [phase1Cursor, if_neg h1]
    unfold SERVO_Interrupt
    rw [if_neg h1]
    dsimp only [DIO_SetPinValue, TIMER1_SetTimerValue, TIMER1_SetCompare_B_Value,
      TIMER1_GetTimerValue, DriverState.servo_count]
    split_ifs with h2 h3
    · refine ⟨[PinEvent.setValue (u.servos.getD 0 dummyServo).port
        (u.servos.getD 0 dummyServo).pin PinLevel.HIGH], by simp, ?_⟩
      intro port pin hmem
      rcases List.mem_singleton.mp hmem with he
      injection he with hp hq hl
      exact ⟨h2, h3, hp, hq⟩
    · exact ⟨[], by simp, by intro port pin hmem; cases hmem⟩
    · exact ⟨[], by simp, by intro port pin hmem; cases hmem⟩
    · exact ⟨[], by simp, by intro port pin hmem; cases hmem⟩

lemma runFrame_high_events (F p : ℕ) (ts : ℕ → ℕ) (s : DriverState) :
    ∀ i, ∃ new, (runFrame F p ts s i).events = new ++ s.events ∧
      ∀ port pin, PinEvent.setValue port pin PinLevel.HIGH ∈ new →
        ∃ k, k < s.servo_count ∧ 0 < (s.servos.getD k dummyServo).ticks ∧
          port = (s.servos.getD k dummyServo).port ∧
          pin = (s.servos.getD k dummyServo).pin := by
  intro i
  induction i with
  | zero => exact ⟨[], rfl, by intro port pin hmem; cases hmem⟩
  | succ i ih =>
      obtain ⟨prev, hprev, hprevH⟩ := ih
      obtain ⟨new1, hnew1, hnew1H⟩ :=
        interrupt_new_events F p (timerRunsTo (ts i) (runFrame F p ts s i))
      have hsrv : (timerRunsTo (ts i) (runFrame F p ts s i)).servos = s.servos :=
        runFrame_servos F p ts s i
      have hcnt : (timerRunsTo (ts i) (runFrame F p ts s i)).servo_count = s.servo_count := by
        rw [DriverState.servo_count, hsrv]
        rfl
      refine ⟨new1 ++ prev, ?_, ?_⟩
      · rw [runFrame, hnew1]
        show new1 ++ (timerRunsTo (ts i) (runFrame F p ts s i)).events = _
        have hev : (timerRunsTo (ts i) (runFrame F p ts s i)).events =
            (runFrame F p ts s i).events := rfl
        rw [hev, hprev, List.append_assoc]
      · intro port pin hmem
        rcases List.mem_append.mp hmem with hm | hm
        · obtain ⟨hk1, hk2, hk3, hk4⟩ := hnew1H port pin hm
          rw [hcnt] at hk1
          rw [hsrv] at hk2 hk3 hk4
          exact ⟨_, hk1, hk2, hk3, hk4⟩
        · exact hprevH port pin hm

/-- Claim C3: in every invocation in which the cursor has moved past the
last registered channel, the handler sets the compare-B register to the
frame boundary `SERVO_PWM_INTERVAL_TICKS` when the current tick value
plus 50 is below that boundary, and to the current tick value plus 20
otherwise. -/
theorem servo_interrupt_frame_rearm (F p : ℕ) (s : DriverState)
    (h : ¬ phase1Cursor s < s.servo_count) :
    (SERVO_Interrupt F p s).compareB =
      if phase1Timer s + 50 < SERVO_PWM_INTERVAL_TICKS F p
      then SERVO_PWM_INTERVAL_TICKS F p
      else phase1Timer s + 20 := by
  by_cases h1 : s.servo_id < s.servo_count
  · simp only [phase1Cursor, phase1Timer, if_pos h1] at h ⊢
    unfold SERVO_Interrupt
    rw [if_pos h1]
    dsimp only [DIO_SetPinValue, TIMER1_SetTimerValue, TIMER1_SetCompare_B_Value,
      TIMER1_GetTimerValue, DriverState.servo_count] at h ⊢
    rw [if_neg h]
    split_ifs <;> rfl
  · simp only [phase1Cursor, phase1Timer, if_neg h1] at h ⊢
    unfold SERVO_Interrupt
    rw [if_neg h1]
    dsimp only [DIO_SetPinValue, TIMER1_SetTimerValue, TIMER1_SetCompare_B_Value,
      TIMER1_GetTimerValue, DriverState.servo_count] at h ⊢
    rw [if_neg h]
    split_ifs <;> rfl

/-- Claim C4: when `SERVO_MAX_NUM` (9) channels are registered, any
further `SERVO_Init` call returns the sentinel id `0xFF` and leaves the
whole driver state (channel array, count, cursor, timer, pins, event log)
exactly unchanged. -/
theorem servo_init_capacity_rejected (port pin : ℕ) (s : DriverState) (h : SERVO_MAX_NUM ≤ s.servo_count) :
    SERVO_Init port pin s = (0xFF, s) :=
  init_full port pin s h

/-- Claim C5: a successful `SERVO_Init` returns the old count as the new
channel id, appends a channel with `ticks = 0` at that index (so the
count grows by one), and immediately drives the pin to output low; on the
first-ever registration it additionally installs the interrupt callback
and resets the timer value, and on any later registration it touches
neither. -/
theorem servo_init_appends_channel (port pin : ℕ) (s : DriverState) (h : s.servo_count < SERVO_MAX_NUM) :
    (SERVO_Init port pin s).1 = s.servo_count ∧
    (SERVO_Init port pin s).2.servo_count = s.servo_count + 1 ∧
    (SERVO_Init port pin s).2.servos = s.servos ++ [⟨port % 4, pin % 8, 0⟩] ∧
    ((SERVO_Init port pin s).2.servos.getD s.servo_count dummyServo).ticks = 0 ∧
    (SERVO_Init port pin s).2.pins port pin = PinLevel.LOW ∧
    (SERVO_Init port pin s).2.events = PinEvent.setValue port pin PinLevel.LOW ::
      PinEvent.setDirection port pin PinDir.OUTPUT :: s.events ∧
    (s.servo_count = 0 → (SERVO_Init port pin s).2.callbackInstalled = true ∧
      (SERVO_Init port pin s).2.timer = 0) ∧
    (s.servo_count ≠ 0 → (SERVO_Init port pin s).2.callbackInstalled = s.callbackInstalled ∧
      (SERVO_Init port pin s).2.timer = s.timer) := by
  obtain ⟨h1, h2, h3, h4, h5, h6, h7⟩ := init_success port pin s h
  refine ⟨h1, ?_, h2, ?_, h4, h5, h6, h7⟩
  · rw [DriverState.servo_count, h2]
    simp [DriverState.servo_count]
  · rw [h2]
    have : s.servo_count = s.servos.length := rfl
    rw [this, List.getD_eq_getElem?_getD, List.getElem?_concat_length]
    rfl

/-- Claim C6: `SERVO_SetAngleByID` updates the addressed channel's ticks
(only that field of only that channel; count, cursor and timer are
untouched) exactly when the angle is at most `SERVO_MAX_ANGLE` (the lower
bound `SERVO_MIN_ANGLE = 0` holds for every unsigned angle) and the id is
below the registered count; for every other input the call returns the
state unchanged. -/
theorem servo_set_angle_validation (F p servo_id angle : ℕ) (s : DriverState) :
    (angle ≤ SERVO_MAX_ANGLE ∧ servo_id < s.servo_count →
      (SERVO_SetAngleByID F p servo_id angle s).servo_count = s.servo_count ∧
      (SERVO_SetAngleByID F p servo_id angle s).servo_id = s.servo_id ∧
      (SERVO_SetAngleByID F p servo_id angle s).timer = s.timer ∧
      (∀ j, j ≠ servo_id →
        (SERVO_SetAngleByID F p servo_id angle s).servos.getD j dummyServo =
          s.servos.getD j dummyServo) ∧
      ((SERVO_SetAngleByID F p servo_id angle s).servos.getD servo_id dummyServo).port =
        (s.servos.getD servo_id dummyServo).port ∧
      ((SERVO_SetAngleByID F p servo_id angle s).servos.getD servo_id dummyServo).pin =
        (s.servos.getD servo_id dummyServo).pin ∧
      ((SERVO_SetAngleByID F p servo_id angle s).servos.getD servo_id dummyServo).ticks =
        SERVO_US_TO_TICKS F p (angleToMicroseconds angle) % 2 ^ 27) ∧
    (¬ (angle ≤ SERVO_MAX_ANGLE ∧ servo_id < s.servo_count) →
      SERVO_SetAngleByID F p servo_id angle s = s) := by
  constructor
  · rintro ⟨ha, hid⟩
    rw [setAngle_valid F p servo_id angle s ha hid]
    have hset : ((s.servos.set servo_id
        { s.servos.getD servo_id dummyServo with
          ticks := SERVO_US_TO_TICKS F p (angleToMicroseconds angle) % 2 ^ 27 }).getD
          servo_id dummyServo) =
        { s.servos.getD servo_id dummyServo with
          ticks := SERVO_US_TO_TICKS F p (angleToMicroseconds angle) % 2 ^ 27 } := by
      rw [List.getD_eq_getElem?_getD, List.getElem?_set_eq_of_lt _ hid]
      rfl
    refine ⟨by simp [DriverState.servo_count], rfl, rfl, ?_, ?_, ?_, ?_⟩
    · intro j hj
      dsimp only
      rw [List.getD_eq_getElem?_getD, List.getElem?_set_ne (fun hh => hj hh.symm),
        List.getD_eq_getElem?_getD]
    · dsimp only
      rw [hset]
    · dsimp only
      rw [hset]
    · dsimp only
      rw [hset]
  · intro h
    exact setAngle_invalid F p servo_id angle s (fun hc => h ⟨hc.2.1, hc.2.2⟩)

/-- Claim C9: the angle-to-ticks conversion is monotonically
non-decreasing over the valid angle range: for `a1 ≤ a2 ≤ 180` the tick
count obtained from `a1` is at most the one obtained from `a2`. -/
theorem servo_angle_ticks_monotone (F p a1 a2 : ℕ) (h12 : a1 ≤ a2) (h2 : a2 ≤ 180) :
    SERVO_US_TO_TICKS F p (angleToMicroseconds a1) ≤
      SERVO_US_TO_TICKS F p (angleToMicroseconds a2) := by
  have hm := angleToMicroseconds_mono_add (a2 - a1) a1 (by omega)
  have he : a1 + (a2 - a1) = a2 := by omega
  rw [he] at hm
  exact us_to_ticks_mono F p hm

/-- Claim C1: on every invocation of `SERVO_Interrupt`, if the cursor
`servo_id` is a valid index below the registered count the handler drives
that channel's pin LOW (the LOW write is among the GPIO calls of this
invocation) and increments the cursor by one; otherwise it resets the
timer's tick counter to 0 and sets the cursor to 0.  The cursor starts at
the sentinel `0xFF`, which is out of range in the initial state, so the
very first invocation takes the reset branch. -/
theorem servo_interrupt_cursor_dispatch (F p : ℕ) (s : DriverState) (h255 : s.servo_count ≤ 255) :
    (s.servo_id < s.servo_count →
      (SERVO_Interrupt F p s).servo_id = s.servo_id + 1 ∧
      ∃ pre, (SERVO_Interrupt F p s).events =
        pre ++ PinEvent.setValue (s.servos.getD s.servo_id dummyServo).port
          (s.servos.getD s.servo_id dummyServo).pin PinLevel.LOW :: s.events) ∧
    (¬ s.servo_id < s.servo_count →
      (SERVO_Interrupt F p s).timer = 0 ∧ (SERVO_Interrupt F p s).servo_id = 0) ∧
    (∀ t0 c0 ps0, (initialState t0 c0 ps0).servo_id = 0xFF ∧
      ¬ (initialState t0 c0 ps0).servo_id < (initialState t0 c0 ps0).servo_count ∧
      (SERVO_Interrupt F p (initialState t0 c0 ps0)).timer = 0 ∧
      (SERVO_Interrupt F p (initialState t0 c0 ps0)).servo_id = 0) := by
  refine ⟨fun hlt => ⟨interrupt_advance F p s h255 hlt, interrupt_low_event F p s hlt⟩,
    fun hge => interrupt_reset F p s hge, fun t0 c0 ps0 => ?_⟩
  have hs : ¬ (initialState t0 c0 ps0).servo_id < (initialState t0 c0 ps0).servo_count := by
    simp [initialState, DriverState.servo_count]
  have h := interrupt_reset F p (initialState t0 c0 ps0) hs
  exact ⟨rfl, hs, h.1, h.2⟩

/-- Claim C2: a registered channel whose tick count is 0 is skipped: the
invocation whose first half stops at that channel adds only the LOW write
for the previous channel (no HIGH edge, no compare-register write), yet
the cursor still advances, and the following invocation moves past the
zero-width channel.  Over a whole frame no HIGH edge is emitted on the
zero-width channel's port/pin (given that no pulsing channel aliases that
pin), while every channel with a nonzero tick count still receives its
HIGH edge at its invocation of the frame. -/
theorem servo_zero_width_skip_no_stall (F p : ℕ) (s : DriverState) (h255 : s.servo_count ≤ 255) :
    (s.servo_id < s.servo_count → s.servo_id + 1 < s.servo_count →
      (s.servos.getD (s.servo_id + 1) dummyServo).ticks = 0 →
      (SERVO_Interrupt F p s).events =
          PinEvent.setValue (s.servos.getD s.servo_id dummyServo).port
            (s.servos.getD s.servo_id dummyServo).pin PinLevel.LOW :: s.events ∧
        (SERVO_Interrupt F p s).compareB = s.compareB ∧
        (SERVO_Interrupt F p s).servo_id = s.servo_id + 1 ∧
        ∀ t, (SERVO_Interrupt F p (timerRunsTo t (SERVO_Interrupt F p s))).servo_id
          = s.servo_id + 2) ∧
    (∀ j, j < s.servo_count → (s.servos.getD j dummyServo).ticks = 0 →
      (∀ k, k < s.servo_count → k ≠ j → 0 < (s.servos.getD k dummyServo).ticks →
        (s.servos.getD k dummyServo).port ≠ (s.servos.getD j dummyServo).port ∨
        (s.servos.getD k dummyServo).pin ≠ (s.servos.getD j dummyServo).pin) →
      ∀ ts i, ∃ new, (runFrame F p ts s i).events = new ++ s.events ∧
        PinEvent.setValue (s.servos.getD j dummyServo).port
          (s.servos.getD j dummyServo).pin PinLevel.HIGH ∉ new) ∧
    (¬ s.servo_id < s.servo_count →
      ∀ ts j, j < s.servo_count → 0 < (s.servos.getD j dummyServo).ticks →
      ∃ l, (runFrame F p ts s (j+1)).events =
        PinEvent.setValue (s.servos.getD j dummyServo).port
          (s.servos.getD j dummyServo).pin PinLevel.HIGH :: l) := by
  refine ⟨?_, ?_, ?_⟩
  · intro hlt hnext h0
    obtain ⟨he, hc, hi, ht⟩ := interrupt_skip_advance F p s h255 hlt hnext h0
    refine ⟨he, hc, hi, fun t => ?_⟩
    have hsrv : (timerRunsTo t (SERVO_Interrupt F p s)).servo_count = s.servo_count := by
      rw [DriverState.servo_count, timerRunsTo_servos, SERVO_Interrupt_servos]
      rfl
    have hid : (timerRunsTo t (SERVO_Interrupt F p s)).servo_id = s.servo_id + 1 := by
      rw [timerRunsTo_servo_id, hi]
    rw [interrupt_advance F p _ (by rw [hsrv]; exact h255) (by rw [hid, hsrv]; omega), hid]
  · intro j hj hjt hdist ts i
    obtain ⟨new, hev, hH⟩ := runFrame_high_events F p ts s i
    refine ⟨new, hev, fun hmem => ?_⟩
    obtain ⟨k, hk, hkt, hkp, hkq⟩ := hH _ _ hmem
    by_cases hkj : k = j
    · rw [hkj] at hkt
      omega
    · rcases hdist k hk hkj hkt with hne | hne
      · exact hne hkp.symm
      · exact hne hkq.symm
  · intro hge ts j hj hjt
    exact runFrame_high F p ts s h255 hge j hj hjt

/-- Claim C7: in every reachable driver state, every registered channel's
tick count is 0 or lies within the tick equivalents of the 1ms and 2ms
pulse widths, `SERVO_US_TO_TICKS 1000` and `SERVO_US_TO_TICKS 2000`
(under the configuration bound that keeps the 2ms tick count inside the
27-bit `ticks` field). -/
theorem servo_pulse_ticks_invariant (F p : ℕ) (s : DriverState) (hr : Reachable F p s)
    (hcfg : SERVO_US_TO_TICKS F p 2000 < 2 ^ 27) :
    ∀ sv ∈ s.servos, sv.ticks = 0 ∨
      (SERVO_US_TO_TICKS F p 1000 ≤ sv.ticks ∧ sv.ticks ≤ SERVO_US_TO_TICKS F p 2000) :=
  ticksInvariant_reachable F p s hcfg hr

/-- Claim C8: the angle conversion is exact at the endpoints despite the
binary64 intermediate step: angle 0 yields exactly 1000µs and angle 180
exactly 2000µs, and the stored tick count for those angles is exactly
`SERVO_US_TO_TICKS 1000` and `SERVO_US_TO_TICKS 2000`. -/
theorem servo_angle_endpoints_exact (F p servo_id : ℕ) (s : DriverState) (hid : servo_id < s.servo_count)
    (hcfg : SERVO_US_TO_TICKS F p 2000 < 2 ^ 27) :
    angleToMicroseconds 0 = 1000 ∧ angleToMicroseconds 180 = 2000 ∧
    ((SERVO_SetAngleByID F p servo_id 0 s).servos.getD servo_id dummyServo).ticks =
      SERVO_US_TO_TICKS F p 1000 ∧
    ((SERVO_SetAngleByID F p servo_id 180 s).servos.getD servo_id dummyServo).ticks =
      SERVO_US_TO_TICKS F p 2000 := by
  have hmono : SERVO_US_TO_TICKS F p 1000 ≤ SERVO_US_TO_TICKS F p 2000 :=
    us_to_ticks_mono F p (by omega)
  refine ⟨angleToMicroseconds_zero, angleToMicroseconds_top, ?_, ?_⟩
  · rw [setAngle_valid F p servo_id 0 s (by simp [SERVO_MAX_ANGLE]) hid]
    dsimp only
    rw [List.getD_eq_getElem?_getD, List.getElem?_set_eq_of_lt _ hid]
    dsimp only [Option.getD_some]
    rw [angleToMicroseconds_zero]
    exact Nat.mod_eq_of_lt (by omega)
  · rw [setAngle_valid F p servo_id 180 s (by simp [SERVO_MAX_ANGLE]) hid]
    dsimp only
    rw [List.getD_eq_getElem?_getD, List.getElem?_set_eq_of_lt _ hid]
    dsimp only [Option.getD_some]
    rw [angleToMicroseconds_top]
    exact Nat.mod_eq_of_lt (by omega)

/-- Claim C10: the `Servo` bit-fields store `port % 4` and `pin % 8`, so
registration with out-of-range arguments records an aliased port/pin, and
`SERVO_SetAngleByPin` compares the stored truncated values against the
caller's arguments, so a lookup with the original out-of-range arguments
matches no channel and leaves the state unchanged. -/
theorem servo_bitfield_truncation (F p port pin angle : ℕ) (s : DriverState) :
    (s.servo_count < SERVO_MAX_NUM →
      (SERVO_Init port pin s).2.servos.getD s.servo_count dummyServo =
        ⟨port % 4, pin % 8, 0⟩) ∧
    ((4 ≤ port ∨ 8 ≤ pin) → (∀ sv ∈ s.servos, sv.port < 4 ∧ sv.pin < 8) →
      SERVO_SetAngleByPin F p port pin angle s = s) := by
  constructor
  · intro h
    rw [(init_success port pin s h).2.1]
    have hlen : s.servo_count = s.servos.length := rfl
    rw [hlen, List.getD_eq_getElem?_getD, List.getElem?_concat_length]
    rfl
  · intro hout hrange
    unfold SERVO_SetAngleByPin
    refine foldl_id _ _ _ ?_
    intro b hb
    have hblt : b < s.servos.length := by
      have := List.mem_range.mp hb
      exact this
    have hmem := getD_mem hblt
    have hr := hrange _ hmem
    rw [if_neg]
    rintro ⟨hpin, hport⟩
    rcases hout with h4 | h8
    · rw [hport] at hr; omega
    · rw [hpin] at hr; omega

/-- Concrete instance of claim C1 on a one-channel driver state. -/
theorem servo_interrupt_cursor_dispatch_witness :
    (SERVO_Interrupt 8000000 8 wAfter1).servo_id = wAfter1.servo_id + 1 ∧
    (SERVO_Interrupt 8000000 8 wSet).timer = 0 ∧
    (SERVO_Interrupt 8000000 8 wSet).servo_id = 0 := by
  have h1 := servo_interrupt_cursor_dispatch 8000000 8 wAfter1 (by decide)
  have h2 := servo_interrupt_cursor_dispatch 8000000 8 wSet (by decide)
  exact ⟨(h1.1 (by decide)).1, (h2.2.1 (by decide)).1, (h2.2.1 (by decide)).2⟩

/-- Concrete instance of claim C2 on a two-channel state whose first channel has width 0. -/
theorem servo_zero_width_skip_no_stall_witness :
    (SERVO_Interrupt 8000000 8 wSkip).servo_id = wSkip.servo_id + 1 ∧
    (∃ new, (runFrame 8000000 8 (fun _ => 0) wTwoSet 3).events = new ++ wTwoSet.events ∧
      PinEvent.setValue (wTwoSet.servos.getD 0 dummyServo).port
        (wTwoSet.servos.getD 0 dummyServo).pin PinLevel.HIGH ∉ new) ∧
    (∃ l, (runFrame 8000000 8 (fun _ => 0) wTwoSet 2).events =
      PinEvent.setValue (wTwoSet.servos.getD 1 dummyServo).port
        (wTwoSet.servos.getD 1 dummyServo).pin PinLevel.HIGH :: l) := by
  have h1 := servo_zero_width_skip_no_stall 8000000 8 wSkip (by decide)
  have h2 := servo_zero_width_skip_no_stall 8000000 8 wTwoSet (by decide)
  refine ⟨(h1.1 (by decide) (by decide) (by decide)).2.2.1, ?_, ?_⟩
  · exact h2.2.1 0 (by decide) (by decide)
      (by decide) (fun _ => 0) 3
  · exact h2.2.2 (by decide) (fun _ => 0) 1 (by decide) (by decide)

/-- Concrete instance of claim C3 after the single registered pulse ended. -/
theorem servo_interrupt_frame_rearm_witness :
    (SERVO_Interrupt 8000000 8 wAfter1).compareB =
      if phase1Timer wAfter1 + 50 < SERVO_PWM_INTERVAL_TICKS 8000000 8
      then SERVO_PWM_INTERVAL_TICKS 8000000 8
      else phase1Timer wAfter1 + 20 :=
  servo_interrupt_frame_rearm 8000000 8 wAfter1 (by decide)

/-- Concrete instance of claim C4: the 10th registration after nine successful ones. -/
theorem servo_init_capacity_rejected_witness : SERVO_Init 1 2 wNine = (0xFF, wNine) :=
  servo_init_capacity_rejected 1 2 wNine (by decide)

/-- Concrete instance of claim C5: the first-ever registration. -/
theorem servo_init_appends_channel_witness :
    (SERVO_Init 0 1 wBase).1 = wBase.servo_count ∧
    (SERVO_Init 0 1 wBase).2.servo_count = wBase.servo_count + 1 ∧
    (SERVO_Init 0 1 wBase).2.pins 0 1 = PinLevel.LOW ∧
    (SERVO_Init 0 1 wBase).2.callbackInstalled = true ∧
    (SERVO_Init 0 1 wBase).2.timer = 0 := by
  have h := servo_init_appends_channel 0 1 wBase (by decide)
  exact ⟨h.1, h.2.1, h.2.2.2.2.1, (h.2.2.2.2.2.2.1 (by decide)).1,
    (h.2.2.2.2.2.2.1 (by decide)).2⟩

/-- Concrete instance of claim C6 at angle 90 (valid) and angle 200 (rejected). -/
theorem servo_set_angle_validation_witness :
    (SERVO_SetAngleByID 8000000 8 0 90 wOne).servo_count = wOne.servo_count ∧
    ((SERVO_SetAngleByID 8000000 8 0 90 wOne).servos.getD 0 dummyServo).ticks =
      SERVO_US_TO_TICKS 8000000 8 (angleToMicroseconds 90) % 2 ^ 27 ∧
    SERVO_SetAngleByID 8000000 8 0 200 wOne = wOne := by
  have h := servo_set_angle_validation 8000000 8 0 90 wOne
  have h2 := servo_set_angle_validation 8000000 8 0 200 wOne
  exact ⟨(h.1 (by decide)).1, (h.1 (by decide)).2.2.2.2.2.2, h2.2 (by decide)⟩

/-- Concrete instance of claim C7 on a reachable one-channel state at angle 90. -/
theorem servo_pulse_ticks_invariant_witness :
    (wSet.servos.getD 0 dummyServo).ticks = 0 ∨
    (SERVO_US_TO_TICKS 8000000 8 1000 ≤ (wSet.servos.getD 0 dummyServo).ticks ∧
      (wSet.servos.getD 0 dummyServo).ticks ≤ SERVO_US_TO_TICKS 8000000 8 2000) := by
  have h := servo_pulse_ticks_invariant 8000000 8 wSet
    (Reachable.setAngleById 0 90
      (Reachable.register 0 1 (Reachable.init 0 0 wPins)))
    (by decide)
  exact h (wSet.servos.getD 0 dummyServo) (by decide)

/-- Concrete instance of claim C8 at 8 MHz with prescaler 8. -/
theorem servo_angle_endpoints_exact_witness :
    angleToMicroseconds 0 = 1000 ∧ angleToMicroseconds 180 = 2000 ∧
    ((SERVO_SetAngleByID 8000000 8 0 0 wOne).servos.getD 0 dummyServo).ticks =
      SERVO_US_TO_TICKS 8000000 8 1000 ∧
    ((SERVO_SetAngleByID 8000000 8 0 180 wOne).servos.getD 0 dummyServo).ticks =
      SERVO_US_TO_TICKS 8000000 8 2000 :=
  servo_angle_endpoints_exact 8000000 8 0 wOne (by decide) (by decide)

/-- Concrete instance of claim C9 at angles 30 and 60. -/
theorem servo_angle_ticks_monotone_witness :
    SERVO_US_TO_TICKS 8000000 8 (angleToMicroseconds 30) ≤
      SERVO_US_TO_TICKS 8000000 8 (angleToMicroseconds 60) :=
  servo_angle_ticks_monotone 8000000 8 30 60 (by decide) (by decide)

/-- Concrete instance of claim C10 with port 5 and pin 9. -/
theorem servo_bitfield_truncation_witness :
    (SERVO_Init 5 9 wOne).2.servos.getD wOne.servo_count dummyServo = ⟨5 % 4, 9 % 8, 0⟩ ∧
    SERVO_SetAngleByPin 8000000 8 5 9 90 wOne = wOne := by
  have h := servo_bitfield_truncation 8000000 8 5 9 90 wOne
  exact ⟨h.1 (by decide), h.2 (by decide) (by decide)⟩

end ATmega32Servo
